import Mathlib

/-!
Verification of the ride-pool schema logic (Supabase/PostgreSQL migrations).

The development shallowly embeds the PL/pgSQL functions of
`backend/supabase/migrations/initial_schema_no_row_returned.sql` (and, for the
driver search, `1_init_schema.sql`) as executable Lean functions:

* SQL `DECIMAL` values are modelled as `ℚ` (exact arithmetic idealisation);
* nullable intermediate values are modelled as `Option ℚ`, with Postgres
  `LEAST`/`GREATEST` ignoring `NULL` arguments and comparisons against `NULL`
  evaluating to not-true;
* `ST_Distance` is an arbitrary parameter `GeoDist` returning metres;
* tables are lists of row structures, `LIMIT 1` without `ORDER BY` takes the
  head of the table in its stored (unspecified) order, and triggers are
  invoked explicitly where the corresponding DML statement fires them.
-/

/-- A geographic point; only used through the distance function. -/
abbrev Point : Type := ℚ × ℚ

/-- The `ST_Distance` geodesic distance on `GEOGRAPHY` points, in metres.
All results are parametric in it. -/
abbrev GeoDist : Type := Point → Point → ℚ

/-- The scoring-relevant columns of a `rides` row, as selected by
`calculate_pool_viability_score` (lines 1097-1111). -/
structure Ride where
  pickup_location : Point
  dropoff_location : Point
  created_at : ℚ
  is_on_front_route : Bool
  deriving DecidableEq, Repr

/-- A row of `pool_scoring_config` (lines 141-175). -/
structure ScoringConfig where
  min_viable_score : ℚ
  destination_proximity_weight : ℚ
  pickup_proximity_weight : ℚ
  route_overlap_weight : ℚ
  time_alignment_weight : ℚ
  detour_penalty_weight : ℚ
  max_destination_distance_km : ℚ
  max_pickup_distance_km : ℚ
  min_route_overlap_percent : ℚ
  max_detour_percent : ℚ
  max_time_difference_minutes : ℤ
  front_route_only : Bool
  deriving DecidableEq, Repr

/-- The default configuration inserted at lines 178-208. -/
def defaultConfig : ScoringConfig :=
  { min_viable_score := 60
    destination_proximity_weight := 30
    pickup_proximity_weight := 25
    route_overlap_weight := 20
    time_alignment_weight := 15
    detour_penalty_weight := 10
    max_destination_distance_km := 2
    max_pickup_distance_km := 5
    min_route_overlap_percent := 40
    max_detour_percent := 30
    max_time_difference_minutes := 10
    front_route_only := true }

/-- Result row of `calculate_pool_viability_score` (the JSONB breakdown column
is not modelled; no claim concerns it). -/
structure ScoreResult where
  total_score : ℚ
  is_viable : Bool
  rejection_reason : Option String
  deriving DecidableEq, Repr

/-- SQL `NULLIF(x, 0)`. -/
def nullif0 (x : ℚ) : Option ℚ := if x = 0 then none else some x

/-- Postgres `LEAST(a, b)` where `b` may be `NULL`: `NULL` arguments are
ignored, so `LEAST(a, NULL) = a`. -/
def sqlLeast (a : ℚ) (b : Option ℚ) : ℚ :=
  match b with
  | none => a
  | some q => if a ≤ q then a else q

/-- Postgres `GREATEST(a, b)` on non-`NULL` arguments. -/
def sqlGreatest (a b : ℚ) : ℚ := if a ≤ b then b else a

/-- The reason-accumulation step `COALESCE(v_rejection_reason || E'\n', '') || msg`:
a `NULL` previous reason contributes the empty string. -/
def appendReason : Option String → String → String
  | none, msg => msg
  | some s, msg => s ++ "\n" ++ msg

/-- One guarded accumulation statement
`IF cond THEN v_rejection_reason := COALESCE(v_rejection_reason || E'\n', '') || msg`. -/
def reasonStep (prev : Option String) (cond : Bool) (msg : String) : Option String :=
  if cond then some (appendReason prev msg) else prev

/-- Left-pads a numeral with zeros to the requested width. -/
def padZeros (width : ℕ) (n : ℕ) : String :=
  let s := toString n
  if s.length < width then String.mk (List.replicate (width - s.length) '0') ++ s.data.asString
  else s

/-- Fixed-point decimal rendering, modelling the `%.Nf` conversion used in the
`FORMAT` calls of the scoring function. -/
def fmtFixed (prec : ℕ) (q : ℚ) : String :=
  let scaled : ℤ := round (q * ((10 : ℚ) ^ prec))
  let sign := if scaled < 0 then "-" else ""
  let n := scaled.natAbs
  if prec = 0 then sign ++ toString n
  else sign ++ toString (n / 10 ^ prec) ++ "." ++ padZeros prec (n % 10 ^ prec)

/-- Message of the front-route early return (line 1114). -/
def frontRouteRejection : String := "One or both riders are not on the front route"

/-- Message built at lines 1125-1129. -/
def destTooFarMsg (dkm maxkm : ℚ) : String :=
  "Destinations too far apart: " ++ fmtFixed 2 dkm ++ " km (max: " ++ fmtFixed 2 maxkm ++ " km)"

/-- Message built at lines 1144-1148. -/
def pickupTooFarMsg (dkm maxkm : ℚ) : String :=
  "Pickups too far apart: " ++ fmtFixed 2 dkm ++ " km (max: " ++ fmtFixed 2 maxkm ++ " km)"

/-- Message built at lines 1171-1175. -/
def overlapTooLowMsg (pct minpct : ℚ) : String :=
  "Insufficient route overlap: " ++ fmtFixed 1 pct ++ "% (min: " ++ fmtFixed 1 minpct ++ "%)"

/-- Message built at lines 1189-1193. -/
def timeTooFarMsg (t maxt : ℤ) : String :=
  "Requests too far apart in time: " ++ toString t ++ " minutes (max: " ++ toString maxt ++ " minutes)"

/-- Message built at lines 1216-1220. -/
def detourTooBigMsg (pct maxpct : ℚ) : String :=
  "Excessive detour: " ++ fmtFixed 1 pct ++ "% (max: " ++ fmtFixed 1 maxpct ++ "%)"

/-- Function `calculate_destination_proximity_score` (lines 977-990). -/
def calculate_destination_proximity_score (distance_km max_distance_km weight : ℚ) : ℚ :=
  if distance_km > max_distance_km then 0
  else weight * (1 - distance_km / max_distance_km)

/-- Function `calculate_pickup_proximity_score` (lines 992-1005). -/
def calculate_pickup_proximity_score (distance_km max_distance_km weight : ℚ) : ℚ :=
  if distance_km > max_distance_km then 0
  else weight * (1 - distance_km / max_distance_km) ^ 2

/-- Function `calculate_route_overlap_score` (lines 1007-1020). -/
def calculate_route_overlap_score (overlap_percent min_overlap_percent weight : ℚ) : ℚ :=
  if overlap_percent < min_overlap_percent then 0
  else weight * ((overlap_percent - min_overlap_percent) / (100 - min_overlap_percent))

/-- Function `calculate_time_alignment_score` (lines 1022-1035). -/
def calculate_time_alignment_score (time_diff_minutes max_time_diff_minutes : ℤ) (weight : ℚ) : ℚ :=
  if time_diff_minutes > max_time_diff_minutes then 0
  else weight * (1 - (time_diff_minutes : ℚ) / (max_time_diff_minutes : ℚ))

/-- Function `calculate_detour_penalty` (lines 1037-1050). -/
def calculate_detour_penalty (detour_percent max_detour_percent weight : ℚ) : ℚ :=
  if detour_percent > max_detour_percent then -weight
  else -weight * (detour_percent / max_detour_percent)

/-- Value `v_dest_distance_km` (lines 1119-1122). -/
def dest_distance_km (d : GeoDist) (r1 r2 : Ride) : ℚ :=
  d r1.dropoff_location r2.dropoff_location / 1000

/-- Value `v_pickup_distance_km` (lines 1138-1141). -/
def pickup_distance_km (d : GeoDist) (r1 r2 : Ride) : ℚ :=
  d r1.pickup_location r2.pickup_location / 1000

/-- Value `v_direct_distance` = `v_direct_route_km` (lines 1157-1160, 1202-1205). -/
def direct_distance_km (d : GeoDist) (r1 : Ride) : ℚ :=
  d r1.pickup_location r1.dropoff_location / 1000

/-- Value `v_combined_distance` = `v_pooled_route_km` (lines 1162-1166, 1207-1211). -/
def combined_distance_km (d : GeoDist) (r1 r2 : Ride) : ℚ :=
  (d r1.pickup_location r2.pickup_location +
   d r2.pickup_location r2.dropoff_location +
   d r2.dropoff_location r1.dropoff_location) / 1000

/-- Value `v_route_overlap_percent` (line 1168): never `NULL`, because the
Postgres `LEAST` ignores the `NULL` produced by `NULLIF` when the combined
distance is zero. -/
def route_overlap_percent (d : GeoDist) (r1 r2 : Ride) : ℚ :=
  sqlLeast 100 ((nullif0 (combined_distance_km d r1 r2)).map
    (fun c => direct_distance_km d r1 / c * 100))

/-- Value `v_time_diff_minutes` (lines 1184-1186); the `::INTEGER` cast rounds
half away from zero, which on the non-negative argument equals `round`. -/
def time_diff_minutes (r1 r2 : Ride) : ℤ :=
  round (|r1.created_at - r2.created_at| / 60)

/-- Value `v_detour_percent` (line 1213); `NULL` when the direct distance is
zero. -/
def detour_percent (d : GeoDist) (r1 r2 : Ride) : Option ℚ :=
  (nullif0 (direct_distance_km d r1)).map
    (fun dd => (combined_distance_km d r1 r2 - direct_distance_km d r1) / dd * 100)

/-- Function `calculate_pool_viability_score` (lines 1056-1267), for given
config and ride rows (the config/ride `SELECT`s resolve to the arguments). -/
def calculate_pool_viability_score (d : GeoDist) (cfg : ScoringConfig) (r1 r2 : Ride) : ScoreResult :=
  if cfg.front_route_only && (!r1.is_on_front_route || !r2.is_on_front_route) then
    { total_score := 0, is_viable := false, rejection_reason := some frontRouteRejection }
  else
    let vDest := dest_distance_km d r1 r2
    let rr1 := reasonStep none (decide (vDest > cfg.max_destination_distance_km))
      (destTooFarMsg vDest cfg.max_destination_distance_km)
    let destScore := calculate_destination_proximity_score vDest
      cfg.max_destination_distance_km cfg.destination_proximity_weight
    let vPickup := pickup_distance_km d r1 r2
    let rr2 := reasonStep rr1 (decide (vPickup > cfg.max_pickup_distance_km))
      (pickupTooFarMsg vPickup cfg.max_pickup_distance_km)
    let pickupScore := calculate_pickup_proximity_score vPickup
      cfg.max_pickup_distance_km cfg.pickup_proximity_weight
    let vOverlap := route_overlap_percent d r1 r2
    let rr3 := reasonStep rr2 (decide (vOverlap < cfg.min_route_overlap_percent))
      (overlapTooLowMsg vOverlap cfg.min_route_overlap_percent)
    let overlapScore := calculate_route_overlap_score vOverlap
      cfg.min_route_overlap_percent cfg.route_overlap_weight
    let vTime := time_diff_minutes r1 r2
    let rr4 := reasonStep rr3 (decide (vTime > cfg.max_time_difference_minutes))
      (timeTooFarMsg vTime cfg.max_time_difference_minutes)
    let timeScore := calculate_time_alignment_score vTime
      cfg.max_time_difference_minutes cfg.time_alignment_weight
    let vDetour := detour_percent d r1 r2
    let rr5 :=
      match vDetour with
      | none => rr4
      | some dp => reasonStep rr4 (decide (dp > cfg.max_detour_percent))
          (detourTooBigMsg dp cfg.max_detour_percent)
    let detourScore : Option ℚ := vDetour.map
      (fun dp => calculate_detour_penalty dp cfg.max_detour_percent cfg.detour_penalty_weight)
    let total := sqlGreatest 0 (sqlLeast 100 (detourScore.map
      (fun ds => destScore + pickupScore + overlapScore + timeScore + ds)))
    { total_score := total
      is_viable := decide (total ≥ cfg.min_viable_score) && rr5.isNone
      rejection_reason := rr5 }

/-- The ride pair reaches the scoring path: the front-route early return at
lines 1113-1117 does not fire. -/
def frontGatePasses (cfg : ScoringConfig) (r1 r2 : Ride) : Prop :=
  (cfg.front_route_only && (!r1.is_on_front_route || !r2.is_on_front_route)) = false

instance (cfg : ScoringConfig) (r1 r2 : Ride) : Decidable (frontGatePasses cfg r1 r2) := by
  unfold frontGatePasses; infer_instance

/-- The destination hard threshold fires (line 1124). -/
def destThresholdExceeded (d : GeoDist) (cfg : ScoringConfig) (r1 r2 : Ride) : Bool :=
  decide (dest_distance_km d r1 r2 > cfg.max_destination_distance_km)

/-- The pickup hard threshold fires (line 1143). -/
def pickupThresholdExceeded (d : GeoDist) (cfg : ScoringConfig) (r1 r2 : Ride) : Bool :=
  decide (pickup_distance_km d r1 r2 > cfg.max_pickup_distance_km)

/-- The route-overlap hard threshold fires (line 1170). -/
def overlapThresholdViolated (d : GeoDist) (cfg : ScoringConfig) (r1 r2 : Ride) : Bool :=
  decide (route_overlap_percent d r1 r2 < cfg.min_route_overlap_percent)

/-- The time hard threshold fires (line 1188). -/
def timeThresholdExceeded (cfg : ScoringConfig) (r1 r2 : Ride) : Bool :=
  decide (time_diff_minutes r1 r2 > cfg.max_time_difference_minutes)

/-- The detour hard threshold fires (line 1215); a `NULL` detour percent
compares as not-true. -/
def detourThresholdExceeded (d : GeoDist) (cfg : ScoringConfig) (r1 r2 : Ride) : Bool :=
  match detour_percent d r1 r2 with
  | none => false
  | some dp => decide (dp > cfg.max_detour_percent)

/-- The ordered list of rejection messages produced by the five hard-threshold
checks. -/
def thresholdViolationMsgs (d : GeoDist) (cfg : ScoringConfig) (r1 r2 : Ride) : List String :=
  (if destThresholdExceeded d cfg r1 r2 then
    [destTooFarMsg (dest_distance_km d r1 r2) cfg.max_destination_distance_km] else []) ++
  (if pickupThresholdExceeded d cfg r1 r2 then
    [pickupTooFarMsg (pickup_distance_km d r1 r2) cfg.max_pickup_distance_km] else []) ++
  (if overlapThresholdViolated d cfg r1 r2 then
    [overlapTooLowMsg (route_overlap_percent d r1 r2) cfg.min_route_overlap_percent] else []) ++
  (if timeThresholdExceeded cfg r1 r2 then
    [timeTooFarMsg (time_diff_minutes r1 r2) cfg.max_time_difference_minutes] else []) ++
  (match detour_percent d r1 r2 with
   | none => []
   | some dp => if decide (dp > cfg.max_detour_percent) then
      [detourTooBigMsg dp cfg.max_detour_percent] else [])

/-- Joins a list of reason messages with newlines; the empty list is `NULL`. -/
def joinedWithNewlines : List String → Option String
  | [] => none
  | m :: ms => some (ms.foldl (fun acc x => acc ++ "\n" ++ x) m)

/-- A concrete distance function (taxicab metric, in metres) used only to
instantiate witnesses and counterexamples. -/
def sampleDist : GeoDist := fun a b => |a.1 - b.1| + |a.2 - b.2|

/-- A ride from the origin to a point 10 km north, created at epoch 0. -/
def rideBase : Ride :=
  { pickup_location := (0, 0), dropoff_location := (0, 10000)
    created_at := 0, is_on_front_route := true }

/-- The same itinerary requested 11 minutes later. -/
def rideLater : Ride :=
  { pickup_location := (0, 0), dropoff_location := (0, 10000)
    created_at := 660, is_on_front_route := true }


/-- Pool lifecycle statuses (pools.status CHECK constraint, lines 222-229). -/
inductive PoolStatus where
  | waiting_for_riders
  | waiting_for_driver
  | ready_to_start
  | started
  | completed
  | cancelled
  deriving DecidableEq, Repr

/-- A status is terminal when it appears in the CASE guard
`status IN ('STARTED', 'COMPLETED', 'CANCELLED')` (line 704). -/
def PoolStatus.isTerminal : PoolStatus → Bool
  | .started => true
  | .completed => true
  | .cancelled => true
  | _ => false

/-- Ride lifecycle statuses (rides.status CHECK constraint, lines 321-328). -/
inductive RideStatus where
  | creating_pool
  | in_pool
  | driver_assigned
  | started
  | completed
  | cancelled
  deriving DecidableEq, Repr

/-- The columns of a `pools` row used by the modelled functions. -/
structure PoolRow where
  id : ℕ
  status : PoolStatus
  vehicle_type : String
  gender_restriction : String
  current_passengers : ℕ
  max_passengers : ℕ
  min_passengers_to_start : ℕ
  driver_id : Option ℕ
  viability_score : Option ℚ
  deleted_at : Option ℚ
  deriving DecidableEq, Repr

/-- The columns of a `pool_members` row used by the modelled functions. -/
structure MemberRow where
  id : ℕ
  pool_id : ℕ
  user_id : ℕ
  ride_id : ℕ
  joined_at : ℚ
  left_at : Option ℚ
  is_front_route_passenger : Bool
  join_score : Option ℚ
  deriving DecidableEq, Repr

/-- The columns of a `rides` row used by the modelled functions. -/
structure RideRow where
  id : ℕ
  pool_id : Option ℕ
  status : RideStatus
  cancelled_reason : Option String
  pickup_location : Point
  dropoff_location : Point
  created_at : ℚ
  is_on_front_route : Bool
  deriving DecidableEq, Repr

/-- The scoring view of a ride row, as selected at lines 1097-1111. -/
def RideRow.scoringView (r : RideRow) : Ride :=
  { pickup_location := r.pickup_location
    dropoff_location := r.dropoff_location
    created_at := r.created_at
    is_on_front_route := r.is_on_front_route }

/-- A `notifications` row (lines 471-481; only the columns written by the
modelled functions). -/
structure NotificationRow where
  user_id : ℕ
  title : String
  message : String
  ntype : String
  deriving DecidableEq, Repr

/-- Database state around one pool: the pool row, the `pool_members` and
`rides` tables, and the `notifications` table. -/
structure DB where
  pool : PoolRow
  members : List MemberRow
  rides : List RideRow
  notifications : List NotificationRow
  deriving DecidableEq, Repr

/-- Count of active members of the pool, front-route-gated as in the
`IF v_front_route_only THEN ... ELSE ...` blocks (lines 687-698). -/
def countedMembers (front_route_only : Bool) (pid : ℕ) (ms : List MemberRow) : ℕ :=
  if front_route_only then
    (ms.filter (fun m => m.pool_id == pid && m.left_at.isNone && m.is_front_route_passenger)).length
  else
    (ms.filter (fun m => m.pool_id == pid && m.left_at.isNone)).length

/-- Trigger function `sync_pool_status` (lines 663-713): recounts the active
(front-route, when the config demands it) members, stores the count in
`current_passengers` and recomputes the status through the CASE at
lines 703-708.  `front_route_only` is `COALESCE(c.front_route_only, TRUE)`
for the pool's scoring config. -/
def sync_pool_status (front_route_only : Bool) (p : PoolRow) (ms : List MemberRow) : PoolRow :=
  let c := countedMembers front_route_only p.id ms
  { p with
    current_passengers := c
    status :=
      if p.status.isTerminal then p.status
      else if c ≥ p.min_passengers_to_start ∧ p.driver_id.isSome then .ready_to_start
      else if c ≥ p.min_passengers_to_start ∧ ¬p.driver_id.isSome then .waiting_for_driver
      else .waiting_for_riders }

/-- Function `sync_pool_status_internal` (lines 728-771), invoked on driver
changes: identical to `sync_pool_status` except that it does not write
`current_passengers`. -/
def sync_pool_status_internal (front_route_only : Bool) (p : PoolRow) (ms : List MemberRow) : PoolRow :=
  let c := countedMembers front_route_only p.id ms
  { p with
    status :=
      if p.status.isTerminal then p.status
      else if c ≥ p.min_passengers_to_start ∧ p.driver_id.isSome then .ready_to_start
      else if c ≥ p.min_passengers_to_start ∧ ¬p.driver_id.isSome then .waiting_for_driver
      else .waiting_for_riders }

/-- Fixed reason written by the cancellation cascade (line 786). -/
def poolWasCancelled : String := "Pool was cancelled"

/-- The rides UPDATE of `cascade_pool_cancellation` (lines 783-788). -/
def cascadeRides (pid : ℕ) (rides : List RideRow) : List RideRow :=
  rides.map (fun r =>
    if r.pool_id == some pid && !(r.status == .completed) && !(r.status == .cancelled) then
      { r with status := .cancelled, cancelled_reason := some poolWasCancelled }
    else r)

/-- The pool_members UPDATE of `cascade_pool_cancellation` (lines 790-793). -/
def cascadeMembers (now : ℚ) (pid : ℕ) (ms : List MemberRow) : List MemberRow :=
  ms.map (fun m =>
    if m.pool_id == pid && m.left_at.isNone then { m with left_at := some now } else m)

/-- An `UPDATE public.pools SET status = newStatus` on the pool row, together
with the triggers it fires: `cascade_pool_cancel` (lines 800-804) runs
`cascade_pool_cancellation` exactly when the status transitions into
CANCELLED, and the cascade's own member UPDATE in turn fires
`sync_pool_status` (lines 715-718) when it touches at least one row. -/
def set_pool_status (front_route_only : Bool) (now : ℚ) (st : DB) (newStatus : PoolStatus) : DB :=
  let old := st.pool.status
  let st1 : DB := { st with pool := { st.pool with status := newStatus } }
  if newStatus = .cancelled ∧ old ≠ .cancelled then
    let st2 : DB := { st1 with
      rides := cascadeRides st.pool.id st1.rides
      members := cascadeMembers now st.pool.id st1.members }
    if st1.members.any (fun m => m.pool_id == st.pool.id && m.left_at.isNone) then
      { st2 with pool := sync_pool_status front_route_only st2.pool st2.members }
    else st2
  else st1

/-- Ordering of members by `joined_at` (the `ORDER BY joined_at ASC` of
lines 889 and 897). -/
def joinedAtOrder (a b : MemberRow) : Prop := a.joined_at ≤ b.joined_at

instance : DecidableRel joinedAtOrder :=
  fun a b => inferInstanceAs (Decidable (a.joined_at ≤ b.joined_at))

/-- The active members the scoring trigger considers, front-route-gated as in
lines 883-911. -/
def eligibleMembers (front_route_only : Bool) (pid : ℕ) (ms : List MemberRow) : List MemberRow :=
  if front_route_only then
    ms.filter (fun m => m.pool_id == pid && m.left_at.isNone && m.is_front_route_passenger)
  else
    ms.filter (fun m => m.pool_id == pid && m.left_at.isNone)

/-- Notification message built at line 939. -/
def formationFailedMsg (sc : ScoreResult) : String :=
  "Pool cancelled: " ++ sc.rejection_reason.getD "" ++
    " (Score: " ++ fmtFixed 1 sc.total_score ++ "/100)"

/-- Trigger function `update_pool_viability_score` (lines 855-949), fired
after inserting `newMember` into `pool_members` (`st` is the post-insert
state).  When exactly two eligible members are present it scores the two
earliest-joined ones, stores score and breakdown, and on a non-viable score
cancels the pool (firing the cancellation cascade through the status
transition) and inserts one notification per member row of the pool.
The pool's config and the `default` scoring config are taken to be the same
`cfg`, as in the shipped schema, which has a single config row.  Ride rows
referenced by members are assumed present (enforced by foreign keys); the
fallthrough branches return the state unchanged. -/
def update_pool_viability_score (d : GeoDist) (cfg : ScoringConfig) (now : ℚ)
    (st : DB) (newMember : MemberRow) : DB :=
  let pid := newMember.pool_id
  let cnt := countedMembers cfg.front_route_only pid st.members
  if cnt = 2 then
    let ordered := List.insertionSort joinedAtOrder (eligibleMembers cfg.front_route_only pid st.members)
    match ordered[0]?, ordered[1]? with
    | some m1, some m2 =>
      match st.rides.find? (fun r => r.id == m1.ride_id), st.rides.find? (fun r => r.id == m2.ride_id) with
      | some r1, some r2 =>
        let sc := calculate_pool_viability_score d cfg r1.scoringView r2.scoringView
        let st1 : DB := { st with
          pool := if st.pool.id = pid then { st.pool with viability_score := some sc.total_score } else st.pool
          members := st.members.map (fun m =>
            if m.id == newMember.id then { m with join_score := some sc.total_score } else m) }
        let st2 : DB :=
          if (st.members.any (fun m => m.id == newMember.id)) ∧ st.pool.id = pid then
            { st1 with pool := sync_pool_status cfg.front_route_only st1.pool st1.members }
          else st1
        if sc.is_viable then st2
        else
          let st3 : DB :=
            if st2.pool.id = pid then
              set_pool_status cfg.front_route_only now
                { st2 with pool := { st2.pool with deleted_at := some now } } .cancelled
            else st2
          { st3 with notifications := st3.notifications ++
              (st3.members.filter (fun m => m.pool_id == pid)).map (fun m =>
                { user_id := m.user_id
                  title := "Pool Formation Failed"
                  message := formationFailedMsg sc
                  ntype := "POOL_CANCELLED" }) }
      | _, _ => st
    | _, _ => st
  else st

/-- Result row of `can_join_pool` (lines 1615-1620; the JSONB breakdown is
not modelled). -/
structure CanJoinResult where
  can_join : Bool
  viability_score : ℚ
  rejection_reason : Option String
  deriving DecidableEq, Repr

/-- The existing member selected at lines 1631-1636: a `LIMIT 1` with no
`ORDER BY`, so the head of the eligible rows in the table's stored
(unspecified) order. -/
def anchorMember (cfg : ScoringConfig) (st : DB) : Option MemberRow :=
  (st.members.filter (fun m =>
    m.pool_id == st.pool.id && m.left_at.isNone &&
      (!cfg.front_route_only || m.is_front_route_passenger))).head?

/-- Function `can_join_pool` (lines 1610-1652).  Ride rows are assumed
present (foreign keys); the fallthrough branch returns a rejection. -/
def can_join_pool (d : GeoDist) (cfg : ScoringConfig) (st : DB) (new_ride_id : ℕ) : CanJoinResult :=
  match anchorMember cfg st with
  | none =>
    { can_join := true, viability_score := 100
      rejection_reason := some "First member - auto-approved" }
  | some m =>
    match st.rides.find? (fun r => r.id == m.ride_id), st.rides.find? (fun r => r.id == new_ride_id) with
    | some r1, some r2 =>
      let sc := calculate_pool_viability_score d cfg r1.scoringView r2.scoringView
      { can_join := sc.is_viable, viability_score := sc.total_score
        rejection_reason := sc.rejection_reason }
    | _, _ => { can_join := false, viability_score := 0, rejection_reason := none }

/-- The columns of a `vehicles` row used by the driver search. -/
structure VehicleRow where
  id : ℕ
  vehicle_type : String
  is_active : Bool
  deleted_at : Option ℚ
  deriving DecidableEq, Repr

/-- The columns of a `users` row used by the modelled functions. -/
structure UserRow where
  id : ℕ
  is_driver : Bool
  deleted_at : Option ℚ
  deriving DecidableEq, Repr

/-- The columns of a `vehicle_locations` row used by the modelled functions. -/
structure VehicleLocationRow where
  id : ℕ
  vehicle_id : ℕ
  driver_id : ℕ
  pool_id : Option ℕ
  current_location : Point
  is_active : Bool
  is_available : Bool
  recorded_at : ℚ
  deriving DecidableEq, Repr

/-- Database state for the location functions: the `vehicles`, `users` and
`vehicle_locations` tables, plus the id counter for fresh location rows. -/
structure GeoDB where
  vehicles : List VehicleRow
  users : List UserRow
  vehicle_locations : List VehicleLocationRow
  next_location_id : ℕ
  deriving DecidableEq, Repr

/-- An output row of `find_nearest_available_drivers`
(`1_init_schema.sql` lines 1357-1368; columns irrelevant to the claims are
omitted). -/
structure NearestDriverRow where
  driver_id : ℕ
  vehicle_id : ℕ
  distance_km : ℚ
  recorded_at : ℚ
  deriving DecidableEq, Repr

/-- The `ORDER BY vl.driver_id, distance_km ASC` sort order of line 1402. -/
def driverDistOrder (a b : NearestDriverRow) : Prop :=
  a.driver_id < b.driver_id ∨ (a.driver_id = b.driver_id ∧ a.distance_km ≤ b.distance_km)

instance : DecidableRel driverDistOrder := fun a b => by
  unfold driverDistOrder; infer_instance

instance : IsTotal NearestDriverRow driverDistOrder where
  total a b := by
    unfold driverDistOrder
    rcases Nat.lt_trichotomy a.driver_id b.driver_id with h | h | h
    · exact Or.inl (Or.inl h)
    · rcases le_total a.distance_km b.distance_km with h2 | h2
      · exact Or.inl (Or.inr ⟨h, h2⟩)
      · exact Or.inr (Or.inr ⟨h.symm, h2⟩)
    · exact Or.inr (Or.inl h)

instance : IsTrans NearestDriverRow driverDistOrder where
  trans a b c hab hbc := by
    unfold driverDistOrder at *
    rcases hab with h1 | ⟨e1, d1⟩
    · rcases hbc with h2 | ⟨e2, _⟩
      · exact Or.inl (h1.trans h2)
      · exact Or.inl (e2 ▸ h1)
    · rcases hbc with h2 | ⟨e2, d2⟩
      · exact Or.inl (e1 ▸ h2)
      · exact Or.inr ⟨e1.trans e2, d1.trans d2⟩

/-- Postgres `DISTINCT ON`: on the sorted row list, keep the first row for
each key not yet seen. -/
def distinctOnFirst {α : Type} (key : α → ℕ) : List α → List ℕ → List α
  | [], _ => []
  | r :: rs, seen =>
    if key r ∈ seen then distinctOnFirst key rs seen
    else r :: distinctOnFirst key rs (key r :: seen)

/-- Function `find_nearest_available_drivers`
(`1_init_schema.sql` lines 1350-1405): joins `vehicle_locations` with
`vehicles` and `users`, filters on availability/activity/soft-deletion,
vehicle type and `ST_DWithin`, computes the distance column, sorts by
`(driver_id, distance_km)` — the order `DISTINCT ON (vl.driver_id)`
requires — keeps one row per driver and applies the `LIMIT`. -/
def find_nearest_available_drivers (d : GeoDist) (st : GeoDB) (pickup : Point)
    (vehicle_type : Option String) (max_distance_km : ℚ) (lim : ℕ) : List NearestDriverRow :=
  let rows := st.vehicle_locations.filterMap (fun vl =>
    match st.vehicles.find? (fun v => v.id == vl.vehicle_id),
          st.users.find? (fun u => u.id == vl.driver_id) with
    | some veh, some u =>
      if vl.is_available ∧ vl.is_active ∧ veh.is_active ∧ veh.deleted_at = none ∧
          u.is_driver ∧ u.deleted_at = none ∧
          (vehicle_type = none ∨ vehicle_type = some veh.vehicle_type) ∧
          d pickup vl.current_location ≤ max_distance_km * 1000 then
        some { driver_id := vl.driver_id, vehicle_id := vl.vehicle_id
               distance_km := d pickup vl.current_location / 1000
               recorded_at := vl.recorded_at }
      else none
    | _, _ => none)
  ((distinctOnFirst (fun r => r.driver_id)
      (List.insertionSort driverDistOrder rows) []).take lim)

/-- The row inserted by `update_driver_location` (lines 1557-1568): active,
and available exactly when no pool id was supplied. -/
def newLocationSample (st : GeoDB) (now : ℚ) (p_driver_id p_vehicle_id : ℕ)
    (loc : Point) (p_pool_id : Option ℕ) : VehicleLocationRow :=
  { id := st.next_location_id, vehicle_id := p_vehicle_id, driver_id := p_driver_id
    pool_id := p_pool_id, current_location := loc
    is_active := true, is_available := p_pool_id.isNone, recorded_at := now }

/-- Function `update_driver_location`
(lines 1530-1572 of `initial_schema_no_row_returned.sql`; identical in
`1_init_schema.sql` lines 1290-1345).  Returns `none` for the
`RAISE EXCEPTION` path.  The guard `IF NOT v_is_driver` is not-true when the
user row is missing (`v_is_driver` is then SQL `NULL`), so only an explicit
`is_driver = FALSE` row raises.  Heading/speed/accuracy columns are not
modelled. -/
def update_driver_location (st : GeoDB) (now : ℚ) (p_driver_id p_vehicle_id : ℕ)
    (loc : Point) (p_pool_id : Option ℕ) : Option GeoDB :=
  let newRow : VehicleLocationRow := newLocationSample st now p_driver_id p_vehicle_id loc p_pool_id
  let updated : GeoDB :=
    { st with
      vehicle_locations :=
        (st.vehicle_locations.map (fun vl =>
          if vl.vehicle_id == p_vehicle_id && vl.is_active then
            { vl with is_active := false }
          else vl)) ++ [newRow]
      next_location_id := st.next_location_id + 1 }
  match st.users.find? (fun u => u.id == p_driver_id) with
  | some u => if u.is_driver then some updated else none
  | none => some updated

/-- A copy of the base ride that is not on the front route. -/
def rideOffRoute : Ride := { rideBase with is_on_front_route := false }

/-- A waiting pool with one open formation, used in concrete states. -/
def pool7 : PoolRow :=
  { id := 7, status := .waiting_for_riders, vehicle_type := "CAR", gender_restriction := "ANY"
    current_passengers := 1, max_passengers := 4, min_passengers_to_start := 2
    driver_id := none, viability_score := none, deleted_at := none }

/-- A full, already-cancelled pool. -/
def poolFull : PoolRow :=
  { id := 8, status := .cancelled, vehicle_type := "CAR", gender_restriction := "ANY"
    current_passengers := 4, max_passengers := 4, min_passengers_to_start := 2
    driver_id := none, viability_score := none, deleted_at := none }

/-- An in-pool ride request belonging to `pool7`. -/
def ride40 : RideRow :=
  { id := 40, pool_id := some 7, status := .in_pool, cancelled_reason := none
    pickup_location := (0, 0), dropoff_location := (0, 10000)
    created_at := 0, is_on_front_route := true }

/-- An active membership of `pool7` for `ride40`. -/
def member30 : MemberRow :=
  { id := 30, pool_id := 7, user_id := 20, ride_id := 40, joined_at := 0
    left_at := none, is_front_route_passenger := true, join_score := none }

/-- A member of `pool7` who joined early (at time 5). -/
def memberEarly : MemberRow :=
  { id := 31, pool_id := 7, user_id := 21, ride_id := 41, joined_at := 5
    left_at := none, is_front_route_passenger := true, join_score := none }

/-- A member of `pool7` who joined later (at time 10). -/
def memberLate : MemberRow :=
  { id := 32, pool_id := 7, user_id := 22, ride_id := 42, joined_at := 10
    left_at := none, is_front_route_passenger := true, join_score := none }

/-- State around `pool7` with one active member and its ride. -/
def db0 : DB := { pool := pool7, members := [member30], rides := [ride40], notifications := [] }

/-- State around the full cancelled pool, with no members. -/
def dbFull : DB := { pool := poolFull, members := [], rides := [], notifications := [] }

/-- State whose `pool_members` table stores the late joiner physically before
the early one. -/
def dbUnordered : DB :=
  { pool := pool7, members := [memberLate, memberEarly], rides := [], notifications := [] }

/-- A registered active CAR, id 1. -/
def veh1 : VehicleRow := { id := 1, vehicle_type := "CAR", is_active := true, deleted_at := none }

/-- A registered active CAR, id 2. -/
def veh2 : VehicleRow := { id := 2, vehicle_type := "CAR", is_active := true, deleted_at := none }

/-- Driver user 1. -/
def usr1 : UserRow := { id := 1, is_driver := true, deleted_at := none }

/-- Driver user 2. -/
def usr2 : UserRow := { id := 2, is_driver := true, deleted_at := none }

/-- Active available sample: vehicle 1, driver 1, 3 km north of the origin. -/
def locFar : VehicleLocationRow :=
  { id := 1, vehicle_id := 1, driver_id := 1, pool_id := none
    current_location := (0, 3000), is_active := true, is_available := true, recorded_at := 0 }

/-- Active available sample: vehicle 2, driver 2, 1 km north of the origin. -/
def locNear : VehicleLocationRow :=
  { id := 2, vehicle_id := 2, driver_id := 2, pool_id := none
    current_location := (0, 1000), is_active := true, is_available := true, recorded_at := 0 }

/-- Geospatial state with two available drivers. -/
def geo0 : GeoDB :=
  { vehicles := [veh1, veh2], users := [usr1, usr2]
    vehicle_locations := [locFar, locNear], next_location_id := 3 }

lemma joinedWithNewlines_eq_none_iff (ms : List String) :
    joinedWithNewlines ms = none ↔ ms = [] := by
  cases ms <;> simp [joinedWithNewlines]

lemma score_isViable_char (d : GeoDist) (cfg : ScoringConfig) (r1 r2 : Ride) :
    (calculate_pool_viability_score d cfg r1 r2).is_viable =
      (decide (cfg.min_viable_score ≤ (calculate_pool_viability_score d cfg r1 r2).total_score) &&
        (calculate_pool_viability_score d cfg r1 r2).rejection_reason.isNone) := by
  unfold calculate_pool_viability_score
  split
  · simp
  · simp [ge_iff_le]

lemma score_rejection_eq (d : GeoDist) (cfg : ScoringConfig) (r1 r2 : Ride)
    (h : frontGatePasses cfg r1 r2) :
    (calculate_pool_viability_score d cfg r1 r2).rejection_reason =
      joinedWithNewlines (thresholdViolationMsgs d cfg r1 r2) := by
  unfold frontGatePasses at h
  unfold calculate_pool_viability_score thresholdViolationMsgs destThresholdExceeded
    pickupThresholdExceeded overlapThresholdViolated timeThresholdExceeded
  rcases hdp : detour_percent d r1 r2 with _ | dp
  · by_cases h1 : dest_distance_km d r1 r2 > cfg.max_destination_distance_km <;>
    by_cases h2 : pickup_distance_km d r1 r2 > cfg.max_pickup_distance_km <;>
    by_cases h3 : route_overlap_percent d r1 r2 < cfg.min_route_overlap_percent <;>
    by_cases h4 : time_diff_minutes r1 r2 > cfg.max_time_difference_minutes <;>
    simp [h, hdp, h1, h2, h3, h4, reasonStep, appendReason, joinedWithNewlines]
  · by_cases h1 : dest_distance_km d r1 r2 > cfg.max_destination_distance_km <;>
    by_cases h2 : pickup_distance_km d r1 r2 > cfg.max_pickup_distance_km <;>
    by_cases h3 : route_overlap_percent d r1 r2 < cfg.min_route_overlap_percent <;>
    by_cases h4 : time_diff_minutes r1 r2 > cfg.max_time_difference_minutes <;>
    by_cases h5 : dp > cfg.max_detour_percent <;>
    simp [h, hdp, h1, h2, h3, h4, h5, reasonStep, appendReason, joinedWithNewlines]

/-- C5: with `frontRouteOnly` set and either request off the front route, the
scoring engine returns score 0, not viable, with the fixed front-route
rejection reason, and the result does not depend on the distance function
(no distance math is performed). -/
theorem frontRouteOnly_gate_short_circuits :
    ∀ (d d2 : GeoDist) (cfg : ScoringConfig) (r1 r2 : Ride),
      cfg.front_route_only = true →
      (r1.is_on_front_route = false ∨ r2.is_on_front_route = false) →
      calculate_pool_viability_score d cfg r1 r2 =
        { total_score := 0, is_viable := false, rejection_reason := some frontRouteRejection } ∧
      calculate_pool_viability_score d cfg r1 r2 = calculate_pool_viability_score d2 cfg r1 r2 := by
  intro d d2 cfg r1 r2 hf hoff
  have hgate : ∀ (d3 : GeoDist),
      calculate_pool_viability_score d3 cfg r1 r2 =
        { total_score := 0, is_viable := false, rejection_reason := some frontRouteRejection } := by
    intro d3
    unfold calculate_pool_viability_score
    rcases hoff with hoff | hoff <;> simp [hf, hoff]
  exact ⟨hgate d, (hgate d).trans (hgate d2).symm⟩

/-- C5 witness: the gate fires on a concrete off-route ride, independently of
the distance function. -/
theorem frontRouteOnly_gate_short_circuits_witness :
    calculate_pool_viability_score sampleDist defaultConfig rideBase rideOffRoute =
      { total_score := 0, is_viable := false, rejection_reason := some frontRouteRejection } :=
  (frontRouteOnly_gate_short_circuits sampleDist sampleDist defaultConfig rideBase rideOffRoute
    rfl (Or.inr rfl)).1

/-- C1: on the scoring path, the result is viable exactly when the clamped
total reaches the configured floor AND no hard threshold check fired; the
rejection reasons of the fired checks accumulate joined by newlines; and on
some inputs the total is at or above the floor yet the result is not viable
(here: 75 with the default floor of 60, rejected for the time threshold). -/
theorem isViable_iff_floor_and_no_threshold :
    (∀ (d : GeoDist) (cfg : ScoringConfig) (r1 r2 : Ride),
      frontGatePasses cfg r1 r2 →
        (((calculate_pool_viability_score d cfg r1 r2).is_viable = true ↔
            cfg.min_viable_score ≤ (calculate_pool_viability_score d cfg r1 r2).total_score ∧
            thresholdViolationMsgs d cfg r1 r2 = []) ∧
          (calculate_pool_viability_score d cfg r1 r2).rejection_reason =
            joinedWithNewlines (thresholdViolationMsgs d cfg r1 r2))) ∧
    (defaultConfig.min_viable_score ≤
        (calculate_pool_viability_score sampleDist defaultConfig rideBase rideLater).total_score ∧
      (calculate_pool_viability_score sampleDist defaultConfig rideBase rideLater).is_viable = false) := by
  constructor
  · intro d cfg r1 r2 h
    have hrej := score_rejection_eq d cfg r1 r2 h
    refine ⟨?_, hrej⟩
    rw [score_isViable_char, hrej]
    simp [Option.isNone_iff_eq_none, joinedWithNewlines_eq_none_iff]
  · constructor
    · norm_num [calculate_pool_viability_score, reasonStep, appendReason, sqlLeast, sqlGreatest,
        nullif0, dest_distance_km, pickup_distance_km, direct_distance_km, combined_distance_km,
        route_overlap_percent, time_diff_minutes, detour_percent,
        calculate_destination_proximity_score, calculate_pickup_proximity_score,
        calculate_route_overlap_score, calculate_time_alignment_score, calculate_detour_penalty,
        sampleDist, rideBase, rideLater, defaultConfig, round_eq]
    · norm_num [calculate_pool_viability_score, reasonStep, appendReason, sqlLeast, sqlGreatest,
        nullif0, dest_distance_km, pickup_distance_km, direct_distance_km, combined_distance_km,
        route_overlap_percent, time_diff_minutes, detour_percent,
        calculate_destination_proximity_score, calculate_pickup_proximity_score,
        calculate_route_overlap_score, calculate_time_alignment_score, calculate_detour_penalty,
        sampleDist, rideBase, rideLater, defaultConfig, round_eq]

/-- C1 witness: the viability characterisation applied to a concrete pair
that passes the front-route gate. -/
theorem isViable_iff_floor_and_no_threshold_witness :
    (calculate_pool_viability_score sampleDist defaultConfig rideBase rideLater).rejection_reason =
      joinedWithNewlines (thresholdViolationMsgs sampleDist defaultConfig rideBase rideLater) :=
  (isViable_iff_floor_and_no_threshold.1 sampleDist defaultConfig rideBase rideLater
    (by decide)).2

/-- C4 counterexample: two requests with identical pickup points, identical
dropoff points and creation timestamps 0 minutes apart score 90 under the
default config, not 100 (the detour term contributes at most 0). -/
theorem identical_pair_default_total_is_not_100 :
    time_diff_minutes rideBase rideBase = 0 ∧
    (calculate_pool_viability_score sampleDist defaultConfig rideBase rideBase).total_score ≠ 100 := by
  constructor
  · norm_num [time_diff_minutes, rideBase, round_eq]
  · norm_num [calculate_pool_viability_score, reasonStep, appendReason, sqlLeast, sqlGreatest,
      nullif0, dest_distance_km, pickup_distance_km, direct_distance_km, combined_distance_km,
      route_overlap_percent, time_diff_minutes, detour_percent,
      calculate_destination_proximity_score, calculate_pickup_proximity_score,
      calculate_route_overlap_score, calculate_time_alignment_score, calculate_detour_penalty,
      sampleDist, rideBase, defaultConfig, round_eq]

/-- C4 amended: under the default config, two on-route requests with
identical pickup points, identical dropoff points, a non-degenerate itinerary
and creation timestamps 0 minutes apart score exactly 90 and are viable. -/
theorem identical_pair_default_scores_90_viable :
    ∀ (d : GeoDist) (r1 r2 : Ride),
      (∀ p, d p p = 0) →
      r1.pickup_location = r2.pickup_location →
      r1.dropoff_location = r2.dropoff_location →
      time_diff_minutes r1 r2 = 0 →
      r1.is_on_front_route = true →
      r2.is_on_front_route = true →
      direct_distance_km d r1 ≠ 0 →
      calculate_pool_viability_score d defaultConfig r1 r2 =
        { total_score := 90, is_viable := true, rejection_reason := none } := by
  intro d r1 r2 hself hp hd ht h1 h2 hdir
  have hdest : dest_distance_km d r1 r2 = 0 := by
    simp [dest_distance_km, ← hd, hself]
  have hpick : pickup_distance_km d r1 r2 = 0 := by
    simp [pickup_distance_km, ← hp, hself]
  have hcomb : combined_distance_km d r1 r2 = direct_distance_km d r1 := by
    simp [combined_distance_km, direct_distance_km, ← hp, ← hd, hself]
  have hover : route_overlap_percent d r1 r2 = 100 := by
    simp [route_overlap_percent, hcomb, nullif0, hdir, sqlLeast, div_self hdir]
  have hdet : detour_percent d r1 r2 = some 0 := by
    simp [detour_percent, nullif0, hdir, hcomb]
  unfold calculate_pool_viability_score
  norm_num [defaultConfig, h1, h2, hdest, hpick, hover, ht, hdet, reasonStep, appendReason,
    calculate_destination_proximity_score, calculate_pickup_proximity_score,
    calculate_route_overlap_score, calculate_time_alignment_score, calculate_detour_penalty,
    sqlGreatest, sqlLeast]

/-- C4 witness: the amended scenario at a concrete identical pair. -/
theorem identical_pair_default_scores_90_viable_witness :
    calculate_pool_viability_score sampleDist defaultConfig rideBase rideBase =
      { total_score := 90, is_viable := true, rejection_reason := none } :=
  identical_pair_default_scores_90_viable sampleDist rideBase rideBase
    (fun p => by simp [sampleDist])
    rfl rfl
    (by norm_num [time_diff_minutes, rideBase, round_eq])
    rfl rfl
    (by norm_num [direct_distance_km, sampleDist, rideBase])

lemma sync_status_of_terminal (f : Bool) (p : PoolRow) (ms : List MemberRow)
    (h : p.status.isTerminal = true) : (sync_pool_status f p ms).status = p.status := by
  simp [sync_pool_status, h]

lemma sync_internal_status_of_terminal (f : Bool) (p : PoolRow) (ms : List MemberRow)
    (h : p.status.isTerminal = true) : (sync_pool_status_internal f p ms).status = p.status := by
  simp [sync_pool_status_internal, h]

lemma set_pool_status_pool_cancelled (f : Bool) (now : ℚ) (st : DB) :
    (set_pool_status f now st .cancelled).pool.status = .cancelled := by
  unfold set_pool_status
  dsimp only
  split
  · split
    · rw [sync_status_of_terminal]
      rfl
    · rfl
  · rfl

/-- C2: the recomputation transition functions never move a pool out of a
terminal status (STARTED, COMPLETED, CANCELLED), and the scoring trigger
either leaves the pool status unchanged or performs the explicit
cancellation write into CANCELLED — so the only exit from a terminal status
is the cancel-triggered cascade's write of CANCELLED. -/
theorem terminal_statuses_sticky :
    (∀ (f : Bool) (p : PoolRow) (ms : List MemberRow), p.status.isTerminal = true →
        (sync_pool_status f p ms).status = p.status) ∧
    (∀ (f : Bool) (p : PoolRow) (ms : List MemberRow), p.status.isTerminal = true →
        (sync_pool_status_internal f p ms).status = p.status) ∧
    (∀ (d : GeoDist) (cfg : ScoringConfig) (now : ℚ) (st : DB) (nm : MemberRow),
        st.pool.status.isTerminal = true →
        (update_pool_viability_score d cfg now st nm).pool.status = st.pool.status ∨
        (update_pool_viability_score d cfg now st nm).pool.status = PoolStatus.cancelled) := by
  refine ⟨fun f p ms h => sync_status_of_terminal f p ms h,
          fun f p ms h => sync_internal_status_of_terminal f p ms h, ?_⟩
  intro d cfg now st nm h
  unfold update_pool_viability_score
  dsimp only
  repeat' split
  all_goals
    first
      | exact Or.inl rfl
      | exact Or.inr (set_pool_status_pool_cancelled _ _ _)
      | (left; rw [sync_status_of_terminal]; first | rfl | exact h)

/-- C2 witness: a STARTED pool is left untouched by a membership recount. -/
theorem terminal_statuses_sticky_witness :
    (sync_pool_status true { pool7 with status := PoolStatus.started } []).status =
      ({ pool7 with status := PoolStatus.started } : PoolRow).status :=
  terminal_statuses_sticky.1 true { pool7 with status := PoolStatus.started } [] (by decide)

lemma set_pool_status_rides (f : Bool) (now : ℚ) (st : DB)
    (hne : st.pool.status ≠ PoolStatus.cancelled) :
    (set_pool_status f now st .cancelled).rides = cascadeRides st.pool.id st.rides := by
  unfold set_pool_status
  dsimp only
  rw [if_pos ⟨rfl, hne⟩]
  split <;> rfl

lemma set_pool_status_members (f : Bool) (now : ℚ) (st : DB)
    (hne : st.pool.status ≠ PoolStatus.cancelled) :
    (set_pool_status f now st .cancelled).members = cascadeMembers now st.pool.id st.members := by
  unfold set_pool_status
  dsimp only
  rw [if_pos ⟨rfl, hne⟩]
  split <;> rfl

lemma set_pool_status_notifications (f : Bool) (now : ℚ) (st : DB)
    (hne : st.pool.status ≠ PoolStatus.cancelled) :
    (set_pool_status f now st .cancelled).notifications = st.notifications := by
  unfold set_pool_status
  dsimp only
  rw [if_pos ⟨rfl, hne⟩]
  split <;> rfl

lemma cascadeRides_mem (pid : ℕ) (rides : List RideRow) (r : RideRow) (hr : r ∈ rides)
    (h1 : r.pool_id = some pid) (h2 : r.status ≠ .completed) (h3 : r.status ≠ .cancelled) :
    { r with status := RideStatus.cancelled, cancelled_reason := some poolWasCancelled } ∈
      cascadeRides pid rides := by
  unfold cascadeRides
  refine List.mem_map.mpr ⟨r, hr, ?_⟩
  simp [h1, h2, h3]

lemma cascadeMembers_mem (now : ℚ) (pid : ℕ) (ms : List MemberRow) (m : MemberRow)
    (hm : m ∈ ms) (h1 : m.pool_id = pid) (h2 : m.left_at = none) :
    { m with left_at := some now } ∈ cascadeMembers now pid ms := by
  unfold cascadeMembers
  refine List.mem_map.mpr ⟨m, hm, ?_⟩
  simp [h1, h2]

/-- C3 amended: on the status transition into CANCELLED the cascade cancels
every non-terminal ride of the pool with the fixed reason string
"Pool was cancelled" (the cascade takes no reason parameter), marks every
active membership as left, and emits no notifications itself; a repeated
write of CANCELLED is a no-op (the cascade fires only on the transition). -/
theorem cancellation_cascade_effects :
    (∀ (f : Bool) (now : ℚ) (st : DB), st.pool.status ≠ PoolStatus.cancelled →
      ((set_pool_status f now st .cancelled).pool.status = PoolStatus.cancelled ∧
       (∀ r ∈ st.rides, r.pool_id = some st.pool.id → r.status ≠ .completed →
          r.status ≠ .cancelled →
          { r with status := RideStatus.cancelled, cancelled_reason := some poolWasCancelled } ∈
            (set_pool_status f now st .cancelled).rides) ∧
       (∀ m ∈ st.members, m.pool_id = st.pool.id → m.left_at = none →
          { m with left_at := some now } ∈ (set_pool_status f now st .cancelled).members) ∧
       (set_pool_status f now st .cancelled).notifications = st.notifications)) ∧
    (∀ (f : Bool) (now : ℚ) (st : DB), st.pool.status = PoolStatus.cancelled →
      set_pool_status f now st .cancelled = st) := by
  constructor
  · intro f now st hne
    refine ⟨set_pool_status_pool_cancelled f now st, ?_, ?_, set_pool_status_notifications f now st hne⟩
    · intro r hr h1 h2 h3
      rw [set_pool_status_rides f now st hne]
      exact cascadeRides_mem st.pool.id st.rides r hr h1 h2 h3
    · intro m hm h1 h2
      rw [set_pool_status_members f now st hne]
      exact cascadeMembers_mem now st.pool.id st.members m hm h1 h2
  · intro f now st he
    rcases st with ⟨⟨i, s, vt, gr, cp, mp, mps, di, vs, da⟩, ms, rs, ns⟩
    dsimp only at he
    subst he
    unfold set_pool_status
    dsimp only
    rw [if_neg (by simp)]

/-- C3 counterexample: cancelling a pool writes the fixed reason
"Pool was cancelled" (not a caller-supplied reason) on the affected ride
and emits no notification for the affected rider. -/
theorem cascade_fixed_reason_no_notifications :
    (set_pool_status true 5 db0 .cancelled).rides =
      [{ ride40 with status := RideStatus.cancelled, cancelled_reason := some poolWasCancelled }] ∧
    poolWasCancelled ≠ "Driver unavailable" ∧
    (set_pool_status true 5 db0 .cancelled).members = [{ member30 with left_at := some (5:ℚ) }] ∧
    (set_pool_status true 5 db0 .cancelled).notifications = [] := by
  refine ⟨rfl, by decide, rfl, rfl⟩

/-- C3 witness: the cascade applied to a concrete transitioning pool leaves
the notifications table untouched. -/
theorem cancellation_cascade_effects_witness :
    (set_pool_status true 5 db0 .cancelled).notifications = db0.notifications :=
  (cancellation_cascade_effects.1 true 5 db0 (by decide)).2.2.2

/-- C6 counterexample: `can_join_pool` approves a join against a pool that is
both full and CANCELLED — it performs no capacity, terminal-state or
compatibility check. -/
theorem can_join_pool_no_capacity_or_terminal_check :
    dbFull.pool.current_passengers = dbFull.pool.max_passengers ∧
    dbFull.pool.status = PoolStatus.cancelled ∧
    (can_join_pool sampleDist defaultConfig dbFull 99).can_join = true :=
  ⟨rfl, rfl, rfl⟩

/-- C6 amended: `can_join_pool` reads nothing of the pool row except its id —
its verdict is invariant under the pool's status, passenger counts, vehicle
class, gender restriction and driver; it auto-approves when no eligible
member exists and otherwise returns the scoring verdict.  Capacity and
compatibility filtering happens only in the candidate-search queries. -/
theorem can_join_pool_ignores_pool_row :
    ∀ (d : GeoDist) (cfg : ScoringConfig) (st : DB) (nid : ℕ) (ps : PoolStatus)
      (cur maxp : ℕ) (vt gr : String) (drv : Option ℕ),
      can_join_pool d cfg
        { st with
          pool := { st.pool with
                    status := ps
                    current_passengers := cur
                    max_passengers := maxp
                    vehicle_type := vt
                    gender_restriction := gr
                    driver_id := drv } } nid =
      can_join_pool d cfg st nid :=
  fun _ _ _ _ _ _ _ _ _ _ => rfl

/-- C7 counterexample: with the eligible members stored out of join order,
the anchor query (LIMIT 1, no ORDER BY) picks the later joiner even though an
earlier-joined eligible active member exists. -/
theorem anchor_not_earliest_joined :
    anchorMember defaultConfig dbUnordered = some memberLate ∧
    memberEarly ∈ dbUnordered.members ∧
    memberEarly.pool_id = dbUnordered.pool.id ∧
    memberEarly.left_at = none ∧
    memberEarly.is_front_route_passenger = true ∧
    memberEarly.joined_at < memberLate.joined_at := by
  refine ⟨rfl, by simp [dbUnordered], rfl, rfl, rfl, by norm_num [memberEarly, memberLate]⟩

/-- C7 amended: the comparison anchor, when one exists, is some eligible
active member of the pool (front-route when the config demands it) — but not
necessarily the earliest-joined one. -/
theorem anchor_is_eligible_active_member :
    ∀ (cfg : ScoringConfig) (st : DB) (m : MemberRow),
      anchorMember cfg st = some m →
      m ∈ st.members ∧ m.pool_id = st.pool.id ∧ m.left_at = none ∧
        (cfg.front_route_only = true → m.is_front_route_passenger = true) := by
  intro cfg st m h
  unfold anchorMember at h
  cases hfl : st.members.filter (fun m => m.pool_id == st.pool.id && m.left_at.isNone &&
      (!cfg.front_route_only || m.is_front_route_passenger)) with
  | nil => rw [hfl] at h; simp at h
  | cons a t =>
    rw [hfl] at h
    have ham : a = m := by simpa using h
    have hmem : m ∈ st.members.filter (fun m => m.pool_id == st.pool.id && m.left_at.isNone &&
        (!cfg.front_route_only || m.is_front_route_passenger)) := by
      rw [hfl, ham]; exact List.mem_cons_self m t
    obtain ⟨h1, h2⟩ := List.mem_filter.mp hmem
    simp only [Bool.and_eq_true, beq_iff_eq, Option.isNone_iff_eq_none, Bool.or_eq_true,
      Bool.not_eq_true'] at h2
    refine ⟨h1, h2.1.1, h2.1.2, fun hf => ?_⟩
    rcases h2.2 with hfalse | htrue
    · rw [hf] at hfalse; cases hfalse
    · exact htrue

/-- C7 witness: the eligibility of the chosen anchor at a concrete state. -/
theorem anchor_is_eligible_active_member_witness :
    memberLate ∈ dbUnordered.members ∧ memberLate.pool_id = dbUnordered.pool.id ∧
      memberLate.left_at = none ∧
      (defaultConfig.front_route_only = true → memberLate.is_front_route_passenger = true) :=
  anchor_is_eligible_active_member defaultConfig dbUnordered memberLate rfl

lemma distinctOnFirst_sublist {α : Type} (key : α → ℕ) :
    ∀ (l : List α) (seen : List ℕ), List.Sublist (distinctOnFirst key l seen) l := by
  intro l
  induction l with
  | nil => intro seen; simp [distinctOnFirst]
  | cons a t ih =>
    intro seen
    unfold distinctOnFirst
    split
    · exact (ih seen).trans (List.sublist_cons_self a t)
    · exact (ih (key a :: seen)).cons₂ a

lemma distinctOnFirst_keys_nodup {α : Type} (key : α → ℕ) :
    ∀ (l : List α) (seen : List ℕ),
      ((distinctOnFirst key l seen).map key).Nodup ∧
        ∀ k ∈ (distinctOnFirst key l seen).map key, k ∉ seen := by
  intro l
  induction l with
  | nil => intro seen; simp [distinctOnFirst]
  | cons a t ih =>
    intro seen
    unfold distinctOnFirst
    split
    · exact ih seen
    · rename_i hnotin
      refine ⟨?_, ?_⟩
      · simp only [List.map_cons, List.nodup_cons]
        exact ⟨fun hmem => (ih (key a :: seen)).2 (key a) hmem (List.mem_cons_self _ _),
          (ih (key a :: seen)).1⟩
      · intro k hk
        simp only [List.map_cons, List.mem_cons] at hk
        rcases hk with rfl | hk
        · exact hnotin
        · exact fun hks => (ih (key a :: seen)).2 k hk (List.mem_cons_of_mem _ hks)


lemma query_pipeline_shape (rows : List NearestDriverRow) (lim : ℕ) :
    ((distinctOnFirst (fun r => r.driver_id)
        (List.insertionSort driverDistOrder rows) []).take lim).length ≤ lim ∧
    (((distinctOnFirst (fun r => r.driver_id)
        (List.insertionSort driverDistOrder rows) []).take lim).map
          (fun r => r.driver_id)).Nodup ∧
    List.Sorted (fun a b : NearestDriverRow => a.driver_id ≤ b.driver_id)
      ((distinctOnFirst (fun r => r.driver_id)
        (List.insertionSort driverDistOrder rows) []).take lim) ∧
    ∀ r ∈ (distinctOnFirst (fun r => r.driver_id)
        (List.insertionSort driverDistOrder rows) []).take lim, r ∈ rows := by
  have hsub : List.Sublist
      ((distinctOnFirst (fun r : NearestDriverRow => r.driver_id)
        (List.insertionSort driverDistOrder rows) []).take lim)
      (List.insertionSort driverDistOrder rows) :=
    (List.take_sublist lim _).trans
      (distinctOnFirst_sublist (fun r => r.driver_id) (List.insertionSort driverDistOrder rows) [])
  refine ⟨List.length_take_le lim _, ?_, ?_, ?_⟩
  · exact ((distinctOnFirst_keys_nodup (fun r : NearestDriverRow => r.driver_id)
      (List.insertionSort driverDistOrder rows) []).1).sublist
      (List.Sublist.map _ (List.take_sublist lim _))
  · have hsorted : List.Sorted driverDistOrder (List.insertionSort driverDistOrder rows) :=
      List.sorted_insertionSort driverDistOrder rows
    exact (List.Pairwise.sublist hsub hsorted).imp
      (fun hab => hab.elim Nat.le_of_lt (fun he => he.1.le))
  · intro r hr
    exact (List.mem_insertionSort driverDistOrder).mp (hsub.subset hr)

/-- C8 amended: the driver search returns at most `limit` rows, one row per
driver (DISTINCT ON driver_id), ordered by driver id — not by distance — and
every returned row stems from an active, available location sample of that
driver within the search radius, with the distance column computed from that
sample. -/
theorem find_nearest_drivers_shape :
    ∀ (d : GeoDist) (st : GeoDB) (pickup : Point) (vt : Option String) (maxKm : ℚ) (lim : ℕ),
      (find_nearest_available_drivers d st pickup vt maxKm lim).length ≤ lim ∧
      ((find_nearest_available_drivers d st pickup vt maxKm lim).map
          (fun r => r.driver_id)).Nodup ∧
      List.Sorted (fun a b : NearestDriverRow => a.driver_id ≤ b.driver_id)
        (find_nearest_available_drivers d st pickup vt maxKm lim) ∧
      ∀ r ∈ find_nearest_available_drivers d st pickup vt maxKm lim,
        ∃ vl ∈ st.vehicle_locations,
          vl.driver_id = r.driver_id ∧ vl.vehicle_id = r.vehicle_id ∧
          vl.is_active = true ∧ vl.is_available = true ∧
          d pickup vl.current_location ≤ maxKm * 1000 ∧
          r.distance_km = d pickup vl.current_location / 1000 := by
  intro d st pickup vt maxKm lim
  unfold find_nearest_available_drivers
  dsimp only
  refine ⟨(query_pipeline_shape _ lim).1, (query_pipeline_shape _ lim).2.1,
    (query_pipeline_shape _ lim).2.2.1, ?_⟩
  intro r hr
  have hrows := (query_pipeline_shape _ lim).2.2.2 r hr
  obtain ⟨vl, hvl, hf⟩ := List.mem_filterMap.mp hrows
  rcases hv : st.vehicles.find? (fun v => v.id == vl.vehicle_id) with _ | veh
  · simp only [hv] at hf
    exact Option.noConfusion hf
  · rcases hu : st.users.find? (fun u => u.id == vl.driver_id) with _ | u
    · simp only [hv, hu] at hf
      exact Option.noConfusion hf
    · simp only [hv, hu] at hf
      split_ifs at hf with hc
      obtain rfl : _ = r := Option.some.inj hf
      exact ⟨vl, hvl, rfl, rfl, by simp [hc.2.1], by simp [hc.1],
        hc.2.2.2.2.2.2.2, rfl⟩

/-- C8 counterexample: two qualifying drivers whose driver-id order opposes
their distance order come back ordered by driver id (3 km before 1 km) — the
result list is not ordered by distance ascending. -/
theorem find_nearest_drivers_not_distance_ordered :
    ((find_nearest_available_drivers sampleDist geo0 (0, 0) none 10 10).map
        (fun r => r.distance_km)) = [3, 1] ∧
    ¬ List.Sorted (fun a b : ℚ => a ≤ b)
      ((find_nearest_available_drivers sampleDist geo0 (0, 0) none 10 10).map
        (fun r => r.distance_km)) := by
  have hout : ((find_nearest_available_drivers sampleDist geo0 (0, 0) none 10 10).map
      (fun r => r.distance_km)) = [3, 1] := by
    norm_num [find_nearest_available_drivers, geo0, veh1, veh2, usr1, usr2, locFar, locNear,
      sampleDist, List.insertionSort, List.orderedInsert, driverDistOrder, distinctOnFirst,
      List.find?, List.filterMap]
  refine ⟨hout, ?_⟩
  rw [hout]
  intro hsorted
  have h31 := List.rel_of_sorted_cons hsorted 1 (by simp)
  norm_num at h31

/-- C8 witness: the shape facts instantiated on the concrete two-driver
state, with the provenance hypothesis discharged for the head row. -/
theorem find_nearest_drivers_shape_witness :
    ((find_nearest_available_drivers sampleDist geo0 (0, 0) none 10 10).map
        (fun r => r.driver_id)).Nodup ∧
    (find_nearest_available_drivers sampleDist geo0 (0, 0) none 10 10).length ≤ 10 :=
  ⟨(find_nearest_drivers_shape sampleDist geo0 (0, 0) none 10 10).2.1,
   (find_nearest_drivers_shape sampleDist geo0 (0, 0) none 10 10).1⟩


/-- C10: after a successful `update_driver_location`, the freshly inserted
sample is the unique active sample of the vehicle; every previously active
sample of the vehicle has been marked inactive (samples of other vehicles are
untouched); and any active sample of the vehicle is available exactly when no
pool id was supplied. -/
theorem update_driver_location_unique_active :
    ∀ (st : GeoDB) (now : ℚ) (drv veh : ℕ) (loc : Point) (pid : Option ℕ) (st' : GeoDB),
      update_driver_location st now drv veh loc pid = some st' →
      (st'.vehicle_locations.filter (fun vl => vl.vehicle_id == veh && vl.is_active)) =
        [newLocationSample st now drv veh loc pid] ∧
      (∀ vl ∈ st.vehicle_locations, vl.vehicle_id = veh → vl.is_active = true →
          { vl with is_active := false } ∈ st'.vehicle_locations) ∧
      (∀ vl ∈ st.vehicle_locations, vl.vehicle_id ≠ veh → vl ∈ st'.vehicle_locations) ∧
      (∀ vl ∈ st'.vehicle_locations, vl.vehicle_id = veh → vl.is_active = true →
          (vl.is_available = true ↔ pid = none)) := by
  intro st now drv veh loc pid st' h
  have hst' : st' =
      { st with
        vehicle_locations :=
          (st.vehicle_locations.map (fun vl =>
            if vl.vehicle_id == veh && vl.is_active then { vl with is_active := false }
            else vl)) ++ [newLocationSample st now drv veh loc pid]
        next_location_id := st.next_location_id + 1 } := by
    unfold update_driver_location at h
    dsimp only at h
    rcases hu : st.users.find? (fun u => u.id == drv) with _ | u <;>
      simp only [hu] at h
    · exact (Option.some.inj h).symm
    · rcases hdriver : u.is_driver with _ | _ <;> simp only [hdriver] at h
      · exact Option.noConfusion h
      · exact (Option.some.inj h).symm
  subst hst'
  refine ⟨?_, ?_, ?_, ?_⟩
  · rw [List.filter_append]
    have hmap : (st.vehicle_locations.map (fun vl =>
        if vl.vehicle_id == veh && vl.is_active then { vl with is_active := false }
        else vl)).filter (fun vl => vl.vehicle_id == veh && vl.is_active) = [] := by
      rw [List.filter_eq_nil_iff]
      intro x hx
      obtain ⟨vl, hvl, rfl⟩ := List.mem_map.mp hx
      by_cases hcond : (vl.vehicle_id == veh && vl.is_active) = true
      · simp [hcond]
      · rw [if_neg hcond]
        exact hcond
    rw [hmap]
    simp [newLocationSample]
  · intro vl hvl hveh hact
    refine List.mem_append_left _ (List.mem_map.mpr ⟨vl, hvl, ?_⟩)
    simp [hveh, hact]
  · intro vl hvl hveh
    refine List.mem_append_left _ (List.mem_map.mpr ⟨vl, hvl, ?_⟩)
    simp [hveh]
  · intro vl hvl hveh hact
    rcases List.mem_append.mp hvl with hin | hin
    · obtain ⟨w, hw, rfl⟩ := List.mem_map.mp hin
      by_cases hcond : (w.vehicle_id == veh && w.is_active) = true
      · simp only [hcond, ite_true] at hact
        cases hact
      · simp only [hcond, Bool.false_eq_true, not_false_eq_true, ite_false] at hveh hact
        exact absurd (by simp [hveh, hact]) hcond
    · have hvleq : vl = newLocationSample st now drv veh loc pid := by simpa using hin
      subst hvleq
      simp [newLocationSample, Option.isNone_iff_eq_none]

/-- Expected state after a concrete location ping for vehicle 1 while serving
pool 7. -/
def geo1 : GeoDB :=
  { vehicles := [veh1, veh2], users := [usr1, usr2]
    vehicle_locations :=
      [{ locFar with is_active := false }, locNear, newLocationSample geo0 9 1 1 (1, 1) (some 7)]
    next_location_id := 4 }

/-- C10 witness: the uniqueness facts at a concrete ping. -/
theorem update_driver_location_unique_active_witness :
    (geo1.vehicle_locations.filter (fun vl => vl.vehicle_id == 1 && vl.is_active)) =
      [newLocationSample geo0 9 1 1 (1, 1) (some 7)] :=
  (update_driver_location_unique_active geo0 9 1 1 (1, 1) (some 7) geo1 rfl).1
